import Mathlib

/-!
Verification of the orphan chunk-state-witness handling module
(`chain/client/src/stateless_validation/chunk_validator/orphan_witness_handling.rs`).

The module is embedded shallowly: the collaborators the code calls
(chain store, epoch manager, serialization, downstream witness-processing
pipeline) are function-valued fields of the `Client` structure, so every
theorem quantifies over all possible collaborator behaviours.  Machine
integers are modelled as `Nat`; the only overflow point in the source is
the `usize → u64` conversion of the witness size, modelled by an explicit
`2 ^ 64` bound check.  Fallible Rust functions returning `Result` are
modelled with `Except Error`.
-/

namespace OrphanWitness

/-- Errors of `near_chain_primitives::Error`, restricted to the variants this
module constructs or propagates. Arbitrary collaborator failures are carried
by the same type (the theorems quantify over them). -/
inductive Error where
  | Other (msg : String)
  | InvalidChunkStateWitness (msg : String)
  | NotAValidator
  | NotAChunkValidator
  | DBNotFoundErr (msg : String)
deriving DecidableEq, Repr

/-- The chunk header carried inside a `ChunkStateWitness`: the fields the
module reads (`height_created()`, `shard_id()`, `chunk_hash()`,
`prev_block_hash()`). Hashes and shard ids are modelled as `Nat`. -/
structure ShardChunkHeader where
  height_created : Nat
  shard_id : Nat
  chunk_hash : Nat
  prev_block_hash : Nat
deriving DecidableEq, Repr

/-- `ChunkStateWitnessInner`: the chunk header plus the remaining proof
payload, which this module never inspects (abstracted to a `Nat`). -/
structure ChunkStateWitnessInner where
  chunk_header : ShardChunkHeader
  payload : Nat
deriving DecidableEq, Repr

/-- `ChunkStateWitness`: signed witness wrapper around the inner part.
The signature is opaque to this module (checked via an epoch-manager
oracle), abstracted to a `Nat`. -/
structure ChunkStateWitness where
  inner : ChunkStateWitnessInner
  signature : Nat
deriving DecidableEq, Repr

/-- Chain head (`Tip`): the fields used are the height (for the distance
check) and the tip data passed to `possible_epochs_of_height_around_tip`. -/
structure Tip where
  height : Nat
  last_block_hash : Nat
deriving DecidableEq, Repr

/-- A block header: the fields used are `height()` and
`last_final_block()`. -/
structure BlockHeader where
  height : Nat
  last_final_block : Nat
deriving DecidableEq, Repr

/-- A block: its hash and its header. -/
structure Block where
  hash : Nat
  header : BlockHeader
deriving DecidableEq, Repr

/-- `ALLOWED_ORPHAN_WITNESS_DISTANCE_FROM_HEAD: Range<BlockHeight> = 2..6`,
modelled as the pair (start, stop) of the half-open range. -/
def ALLOWED_ORPHAN_WITNESS_DISTANCE_FROM_HEAD : Nat × Nat := (2, 6)

/-- `Range::contains` for a half-open `Nat` range `(start, stop)`. -/
def rangeContains (r : Nat × Nat) (x : Nat) : Bool :=
  decide (r.1 ≤ x) && decide (x < r.2)

/-- `MAX_ORPHAN_WITNESS_SIZE.as_u64()`: `ByteSize::mb(40)` is 40 * 10^6
bytes in the `bytesize` crate. -/
def MAX_ORPHAN_WITNESS_SIZE : Nat := 40 * 1000000

/-- Modelled from the spec: a pool entry of `OrphanStateWitnessPool`
(the pool lives in `orphan_witness_pool.rs`, which is not part of the
sources here). Per the spec it is a (witness, byte_size) pair stored under
a block-identifier key, with the invariant that the key equals the
witness's `prev_block_hash`. -/
structure PoolEntry where
  key : Nat
  witness : ChunkStateWitness
  size : Nat
deriving DecidableEq, Repr

/-- Modelled from the spec: `OrphanStateWitnessPool`, a mapping from
awaited-block identifier to pooled (witness, size) entries. The mapping is
modelled as the list of its entries, each tagged with its key. -/
structure OrphanStateWitnessPool where
  entries : List PoolEntry
deriving DecidableEq, Repr

/-- Modelled from the spec: `add_orphan_state_witness(witness, size)`
inserts the witness into the pool keyed by its previous-block hash,
carrying the already-computed byte size. -/
def OrphanStateWitnessPool.add_orphan_state_witness
    (p : OrphanStateWitnessPool) (witness : ChunkStateWitness) (size : Nat) :
    OrphanStateWitnessPool :=
  ⟨p.entries ++ [⟨witness.inner.chunk_header.prev_block_hash, witness, size⟩]⟩

/-- Modelled from the spec:
`take_state_witnesses_waiting_for_block(block_id)` atomically removes and
returns all entries keyed by `block_id`. Returns the taken witnesses and
the remaining pool. -/
def OrphanStateWitnessPool.take_state_witnesses_waiting_for_block
    (p : OrphanStateWitnessPool) (block_hash : Nat) :
    List ChunkStateWitness × OrphanStateWitnessPool :=
  ((p.entries.filter (fun e => e.key == block_hash)).map (fun e => e.witness),
   ⟨p.entries.filter (fun e => e.key != block_hash)⟩)

/-- Modelled from the spec: `remove_witnesses_below_final_height(h)`
removes every entry whose witness height is strictly below `h`. -/
def OrphanStateWitnessPool.remove_witnesses_below_final_height
    (p : OrphanStateWitnessPool) (final_height : Nat) :
    OrphanStateWitnessPool :=
  ⟨p.entries.filter
    (fun e => !decide (e.witness.inner.chunk_header.height_created < final_height))⟩

/-- The chain-store collaborator: `self.chain.head()` and
`self.chain.get_block_header(hash)`, as oracles. -/
structure Chain where
  head : Except Error Tip
  get_block_header : Nat → Except Error BlockHeader

/-- The epoch-manager collaborator, as oracles: candidate epochs for a
height, shard layout (as the list of its shard ids), chunk-validator
assignments (as the list of assigned validator ids), and witness signature
verification. Epoch ids and validator ids are modelled as `Nat`. -/
structure EpochManager where
  possible_epochs_of_height_around_tip : Tip → Nat → Except Error (List Nat)
  get_shard_layout : Nat → Except Error (List Nat)
  get_chunk_validator_assignments : Nat → Nat → Nat → Except Error (List Nat)
  verify_chunk_state_witness_signature_in_epoch :
    ChunkStateWitness → Nat → Except Error Bool

/-- `self.chunk_validator`: the local signing identity (if any) and the
orphan witness pool. -/
structure ChunkValidator where
  my_signer : Option Nat
  orphan_witness_pool : OrphanStateWitnessPool

/-- The `Client` as seen by this module: its collaborators plus the two
remaining oracles it calls, `borsh::to_vec` (serialization of a witness to
bytes) and `process_chunk_state_witness_with_prev_block` (the downstream
witness-processing pipeline; its mutations are outside this module, so it
is modelled as a result oracle). -/
structure Client where
  chain : Chain
  epoch_manager : EpochManager
  chunk_validator : ChunkValidator
  borsh_to_vec : ChunkStateWitness → Except Error (List Nat)
  process_chunk_state_witness_with_prev_block :
    ChunkStateWitness → Block → Option Unit → Except Error Unit

/-- `HandleOrphanWitnessOutcome` from the source, verbatim. -/
inductive HandleOrphanWitnessOutcome where
  | SavedToPool
  | TooBig (size : Nat)
  | TooFarFromHead (head_height : Nat) (witness_height : Nat)
deriving DecidableEq, Repr

/-- `partially_validate_orphan_witness_in_epoch`, translated from the
source: shard-id validity, local signer presence, chunk-validator
assignment membership, signature verification, in that order,
short-circuiting on the first failure. -/
def Client.partially_validate_orphan_witness_in_epoch
    (c : Client) (witness : ChunkStateWitness) (epoch_id : Nat) :
    Except Error Unit :=
  let chunk_header := witness.inner.chunk_header
  let witness_height := chunk_header.height_created
  let witness_shard := chunk_header.shard_id
  match c.epoch_manager.get_shard_layout epoch_id with
  | .error e => .error e
  | .ok shard_ids =>
    if !(shard_ids.contains witness_shard) then
      .error (.InvalidChunkStateWitness
        ("Invalid shard_id in ChunkStateWitness: " ++ toString witness_shard))
    else
      match c.chunk_validator.my_signer with
      | none => .error .NotAValidator
      | some my_signer =>
        match c.epoch_manager.get_chunk_validator_assignments
            epoch_id witness_shard witness_height with
        | .error e => .error e
        | .ok chunk_validator_assignments =>
          if !(chunk_validator_assignments.contains my_signer) then
            .error .NotAChunkValidator
          else
            match c.epoch_manager.verify_chunk_state_witness_signature_in_epoch
                witness epoch_id with
            | .error e => .error e
            | .ok verified =>
              if !verified then
                .error (.InvalidChunkStateWitness "Invalid signature")
              else
                .ok ()

/-- The `for epoch_id in possible_epochs` loop of
`handle_orphan_state_witness`: `epoch_validation_result` starts as `none`,
is overwritten by each iteration's result, and the loop breaks at the first
success. Hence: `none` for the empty list, `some (.ok ())` when some epoch
validates (the loop stops there), and the last error when all fail. -/
def Client.validate_in_possible_epochs
    (c : Client) (witness : ChunkStateWitness) :
    List Nat → Option (Except Error Unit)
  | [] => none
  | epoch_id :: rest =>
    match c.partially_validate_orphan_witness_in_epoch witness epoch_id with
    | .ok _ => some (.ok ())
    | .error err =>
      match c.validate_in_possible_epochs witness rest with
      | none => some (.error err)
      | some r => some r

/-- `handle_orphan_state_witness`, translated from the source. Returns the
`Result` together with the (possibly updated) client, since the Rust
method takes `&mut self`. -/
def Client.handle_orphan_state_witness
    (c : Client) (witness : ChunkStateWitness) :
    Except Error HandleOrphanWitnessOutcome × Client :=
  let chunk_header := witness.inner.chunk_header
  let witness_height := chunk_header.height_created
  match c.chain.head with
  | .error e => (.error e, c)
  | .ok chain_head =>
    let head_distance := witness_height - chain_head.height
    if !(rangeContains ALLOWED_ORPHAN_WITNESS_DISTANCE_FROM_HEAD head_distance) then
      (.ok (.TooFarFromHead chain_head.height witness_height), c)
    else
      match c.borsh_to_vec witness with
      | .error e => (.error e, c)
      | .ok bytes =>
        let witness_size := bytes.length
        if !decide (witness_size < 2 ^ 64) then
          (.error (.Other
            ("Cannot convert witness size to u64: " ++ toString witness_size)), c)
        else if witness_size > MAX_ORPHAN_WITNESS_SIZE then
          (.ok (.TooBig witness_size), c)
        else
          match c.epoch_manager.possible_epochs_of_height_around_tip
              chain_head witness_height with
          | .error e => (.error e, c)
          | .ok possible_epochs =>
            match c.validate_in_possible_epochs witness possible_epochs with
            | some (.ok _) =>
              (.ok .SavedToPool,
               { c with chunk_validator := { c.chunk_validator with
                   orphan_witness_pool :=
                     c.chunk_validator.orphan_witness_pool.add_orphan_state_witness
                       witness witness_size } })
            | some (.error err) => (.error err, c)
            | none =>
              (.error (.Other
                ("Couldnt find any matching EpochId for orphan chunk state witness with height "
                  ++ toString witness_height)), c)

/-- The dispatch loop of `process_ready_orphan_witnesses_and_clean_old`:
each ready witness is handed to the processing pipeline; a failure is
logged and otherwise swallowed, so the loop continues regardless. The
returned trace records each pipeline invocation and its result. -/
def Client.dispatch_ready_witnesses
    (c : Client) (new_block : Block) :
    List ChunkStateWitness → List (ChunkStateWitness × Except Error Unit)
  | [] => []
  | witness :: rest =>
    (witness, c.process_chunk_state_witness_with_prev_block witness new_block none)
      :: c.dispatch_ready_witnesses new_block rest

/-- `process_ready_orphan_witnesses_and_clean_old`, translated from the
source: take the witnesses waiting for the new block, dispatch each to the
pipeline (failures swallowed), then prune the pool below the new block's
last final height — unless looking up the last final block header fails,
in which case the function returns after logging, without pruning.
Returns the updated client and the dispatch trace. -/
def Client.process_ready_orphan_witnesses_and_clean_old
    (c : Client) (new_block : Block) :
    Client × List (ChunkStateWitness × Except Error Unit) :=
  let taken := c.chunk_validator.orphan_witness_pool.take_state_witnesses_waiting_for_block
    new_block.hash
  let ready_witnesses := taken.1
  let c1 : Client :=
    { c with chunk_validator := { c.chunk_validator with orphan_witness_pool := taken.2 } }
  let dispatch_trace := c.dispatch_ready_witnesses new_block ready_witnesses
  match c.chain.get_block_header new_block.header.last_final_block with
  | .error _ => (c1, dispatch_trace)
  | .ok last_final_block =>
    ({ c1 with chunk_validator := { c1.chunk_validator with
        orphan_witness_pool :=
          taken.2.remove_witnesses_below_final_height last_final_block.height } },
     dispatch_trace)

/-! Concrete fixtures used by the witness theorems. -/

/-- A test witness at height `h`: shard 0, chunk hash 11, previous block
hash 55, payload `p`. -/
def testWitnessAt (h p : Nat) : ChunkStateWitness :=
  ⟨⟨⟨h, 0, 11, 55⟩, p⟩, 9⟩

/-- A test client: chain head at height 100; candidate epochs `[0, 1]`;
epoch 0 has no shards (so validation fails there) while epoch 1 has shard
0; the local signer 5 is assigned and signatures verify; serialization
yields 3 bytes. -/
def testClient : Client where
  chain := { head := .ok ⟨100, 42⟩, get_block_header := fun _ => .ok ⟨95, 0⟩ }
  epoch_manager := {
    possible_epochs_of_height_around_tip := fun _ _ => .ok [0, 1]
    get_shard_layout := fun e => if e == 0 then .ok [] else .ok [0]
    get_chunk_validator_assignments := fun _ _ _ => .ok [5]
    verify_chunk_state_witness_signature_in_epoch := fun _ _ => .ok true }
  chunk_validator := { my_signer := some 5, orphan_witness_pool := ⟨[]⟩ }
  borsh_to_vec := fun _ => .ok [1, 2, 3]
  process_chunk_state_witness_with_prev_block := fun _ _ _ => .ok ()

/-- An oversized serialized form: one byte more than the 40 MB limit. -/
def bigBytes : List Nat := List.replicate 40000001 0

/-- Like `testClient`, but serialization yields `bigBytes`. -/
def testClientBig : Client :=
  { testClient with borsh_to_vec := fun _ => .ok bigBytes }

/-- Like `testClient`, but the epoch manager returns no candidate epochs. -/
def testClientNoEpochs : Client :=
  { testClient with epoch_manager := { testClient.epoch_manager with
      possible_epochs_of_height_around_tip := fun _ _ => .ok [] } }

/-- Like `testClient`, but every epoch has an empty shard layout, so
validation fails in every candidate epoch. -/
def testClientAllFail : Client :=
  { testClient with epoch_manager := { testClient.epoch_manager with
      get_shard_layout := fun _ => .ok [] } }

/-- Pool fixture witnesses: two waiting for block 55 (heights 103 and 104)
and two waiting for block 66 (heights 90 and 104). -/
def wA : ChunkStateWitness := ⟨⟨⟨103, 0, 11, 55⟩, 1⟩, 9⟩

/-- Second witness waiting for block 55. -/
def wB : ChunkStateWitness := ⟨⟨⟨104, 0, 12, 55⟩, 2⟩, 9⟩

/-- Witness waiting for block 66 at height 90 (below the final height 101,
so it gets pruned). -/
def wC : ChunkStateWitness := ⟨⟨⟨90, 0, 13, 66⟩, 3⟩, 9⟩

/-- Witness waiting for block 66 at height 104 (it survives the prune). -/
def wD : ChunkStateWitness := ⟨⟨⟨104, 0, 14, 66⟩, 4⟩, 9⟩

/-- A pool holding the four fixture witnesses under their keys. -/
def testPool : OrphanStateWitnessPool :=
  ⟨[⟨55, wA, 3⟩, ⟨55, wB, 4⟩, ⟨66, wC, 5⟩, ⟨66, wD, 6⟩]⟩

/-- The arriving block: hash 55, last final block 77. -/
def testBlock : Block := ⟨55, ⟨105, 77⟩⟩

/-- A client for the dispatcher tests: pool `testPool`; the header of block
77 resolves to height 101; the pipeline fails on `wA` (payload 1) and
succeeds on every other witness. -/
def testClientDispatch : Client :=
  { testClient with
    chain := { testClient.chain with
      get_block_header := fun h =>
        if h == 77 then .ok ⟨101, 70⟩ else .error (.DBNotFoundErr "header") }
    chunk_validator := { testClient.chunk_validator with
      orphan_witness_pool := testPool }
    process_chunk_state_witness_with_prev_block := fun w _ _ =>
      if w.inner.payload == 1 then .error .NotAValidator else .ok () }

/-- Like `testClientDispatch`, but every block-header lookup fails. -/
def testClientNoHeader : Client :=
  { testClientDispatch with chain := { testClientDispatch.chain with
      get_block_header := fun _ => .error (.DBNotFoundErr "header") } }

/-! Theorems. -/

/-- Claim C1: `handle_orphan_state_witness` computes `head_distance` as the
witness height minus the chain head height (saturating at zero, as `Nat`
subtraction does); if `head_distance` is outside the half-open window
`[2, 6)` it returns `Ok (TooFarFromHead head_height witness_height)` — not
an error — leaving the client (hence the orphan pool) unchanged; for
`head_distance` in `{2, 3, 4, 5}` the check passes: the result is never a
`TooFarFromHead` outcome. -/
theorem C1_head_distance_window
    (c : Client) (w : ChunkStateWitness) (tip : Tip)
    (hhead : c.chain.head = .ok tip) :
    (¬ (2 ≤ w.inner.chunk_header.height_created - tip.height ∧
        w.inner.chunk_header.height_created - tip.height < 6) →
      c.handle_orphan_state_witness w =
        (.ok (.TooFarFromHead tip.height w.inner.chunk_header.height_created), c))
    ∧ ((2 ≤ w.inner.chunk_header.height_created - tip.height ∧
        w.inner.chunk_header.height_created - tip.height < 6) →
      ∀ hh wh, (c.handle_orphan_state_witness w).1 ≠
        Except.ok (HandleOrphanWitnessOutcome.TooFarFromHead hh wh)) := by
  constructor
  · intro hfar
    have hrc : rangeContains ALLOWED_ORPHAN_WITNESS_DISTANCE_FROM_HEAD
        (w.inner.chunk_header.height_created - tip.height) = false := by
      simp only [rangeContains, ALLOWED_ORPHAN_WITNESS_DISTANCE_FROM_HEAD,
        Bool.and_eq_false_iff, decide_eq_false_iff_not]
      omega
    simp only [Client.handle_orphan_state_witness, hhead]
    simp [hrc]
  · intro hin hh wh
    have hrc : rangeContains ALLOWED_ORPHAN_WITNESS_DISTANCE_FROM_HEAD
        (w.inner.chunk_header.height_created - tip.height) = true := by
      simp only [rangeContains, ALLOWED_ORPHAN_WITNESS_DISTANCE_FROM_HEAD,
        Bool.and_eq_true, decide_eq_true_eq]
      omega
    simp only [Client.handle_orphan_state_witness, hhead, hrc]
    repeat' split
    all_goals simp_all

/-- Witness for C1 at concrete inputs: with the head at height 100, a
witness at height 101 (distance 1) yields `TooFarFromHead 100 101` with the
client unchanged, and a witness at height 103 (distance 3) passes the
distance check. -/
theorem C1_head_distance_window_witness :
    testClient.handle_orphan_state_witness (testWitnessAt 101 7) =
      (.ok (.TooFarFromHead 100 101), testClient)
    ∧ (testClient.handle_orphan_state_witness (testWitnessAt 103 7)).1 ≠
      Except.ok (HandleOrphanWitnessOutcome.TooFarFromHead 100 103) :=
  ⟨(C1_head_distance_window testClient (testWitnessAt 101 7) ⟨100, 42⟩ rfl).1
      (by decide),
   (C1_head_distance_window testClient (testWitnessAt 103 7) ⟨100, 42⟩ rfl).2
      (by decide) 100 103⟩

/-- Claim C10: admission is atomic with respect to the pool — for every
client and witness, either `handle_orphan_state_witness` returns
`Ok SavedToPool`, or it leaves the client (and hence the orphan pool)
exactly unchanged; in particular every `Err` return and every benign
non-`SavedToPool` outcome leaves the pool untouched. -/
theorem C10_pool_unchanged_unless_saved
    (c : Client) (w : ChunkStateWitness) :
    (c.handle_orphan_state_witness w).1 =
      Except.ok HandleOrphanWitnessOutcome.SavedToPool ∨
    (c.handle_orphan_state_witness w).2 = c := by
  simp only [Client.handle_orphan_state_witness]
  repeat' split
  all_goals simp

/-- Claim C4: `partially_validate_orphan_witness_in_epoch` performs exactly
these checks in this order, short-circuiting on the first failure: (1) the
witness's shard id is valid under the epoch's shard layout, else
`InvalidChunkStateWitness`; (2) the local node holds a signing identity,
else `NotAValidator`; (3) that identity is among the chunk validator
assignments for (epoch, shard, height), else `NotAChunkValidator`; (4) the
witness's signature verifies for that epoch, else
`InvalidChunkStateWitness "Invalid signature"`; when all pass it returns
`Ok ()`. (The function is pure by construction: it takes the client
immutably and returns only the validation result.) -/
theorem C4_partial_validation_check_order
    (c : Client) (w : ChunkStateWitness) (epoch_id : Nat) (shard_ids : List Nat)
    (hlayout : c.epoch_manager.get_shard_layout epoch_id = .ok shard_ids) :
    (shard_ids.contains w.inner.chunk_header.shard_id = false →
      c.partially_validate_orphan_witness_in_epoch w epoch_id =
        .error (.InvalidChunkStateWitness
          ("Invalid shard_id in ChunkStateWitness: "
            ++ toString w.inner.chunk_header.shard_id)))
    ∧ (shard_ids.contains w.inner.chunk_header.shard_id = true →
       c.chunk_validator.my_signer = none →
      c.partially_validate_orphan_witness_in_epoch w epoch_id =
        .error .NotAValidator)
    ∧ (∀ signer assignments,
       shard_ids.contains w.inner.chunk_header.shard_id = true →
       c.chunk_validator.my_signer = some signer →
       c.epoch_manager.get_chunk_validator_assignments epoch_id
         w.inner.chunk_header.shard_id w.inner.chunk_header.height_created =
           .ok assignments →
       assignments.contains signer = false →
      c.partially_validate_orphan_witness_in_epoch w epoch_id =
        .error .NotAChunkValidator)
    ∧ (∀ signer assignments,
       shard_ids.contains w.inner.chunk_header.shard_id = true →
       c.chunk_validator.my_signer = some signer →
       c.epoch_manager.get_chunk_validator_assignments epoch_id
         w.inner.chunk_header.shard_id w.inner.chunk_header.height_created =
           .ok assignments →
       assignments.contains signer = true →
       c.epoch_manager.verify_chunk_state_witness_signature_in_epoch w epoch_id =
         .ok false →
      c.partially_validate_orphan_witness_in_epoch w epoch_id =
        .error (.InvalidChunkStateWitness "Invalid signature"))
    ∧ (∀ signer assignments,
       shard_ids.contains w.inner.chunk_header.shard_id = true →
       c.chunk_validator.my_signer = some signer →
       c.epoch_manager.get_chunk_validator_assignments epoch_id
         w.inner.chunk_header.shard_id w.inner.chunk_header.height_created =
           .ok assignments →
       assignments.contains signer = true →
       c.epoch_manager.verify_chunk_state_witness_signature_in_epoch w epoch_id =
         .ok true →
      c.partially_validate_orphan_witness_in_epoch w epoch_id = .ok ()) := by
  refine ⟨?_, ?_, ?_, ?_, ?_⟩
  · intro hshard
    have hs : w.inner.chunk_header.shard_id ∉ shard_ids := by simpa using hshard
    simp [Client.partially_validate_orphan_witness_in_epoch, hlayout, hs]
  · intro hshard hsigner
    have hs : w.inner.chunk_header.shard_id ∈ shard_ids := by simpa using hshard
    simp [Client.partially_validate_orphan_witness_in_epoch, hlayout, hs,
      hsigner]
  · intro signer assignments hshard hsigner hassign hmem
    have hs : w.inner.chunk_header.shard_id ∈ shard_ids := by simpa using hshard
    have hm : signer ∉ assignments := by simpa using hmem
    simp [Client.partially_validate_orphan_witness_in_epoch, hlayout, hs,
      hsigner, hassign, hm]
  · intro signer assignments hshard hsigner hassign hmem hver
    have hs : w.inner.chunk_header.shard_id ∈ shard_ids := by simpa using hshard
    have hm : signer ∈ assignments := by simpa using hmem
    simp [Client.partially_validate_orphan_witness_in_epoch, hlayout, hs,
      hsigner, hassign, hm, hver]
  · intro signer assignments hshard hsigner hassign hmem hver
    have hs : w.inner.chunk_header.shard_id ∈ shard_ids := by simpa using hshard
    have hm : signer ∈ assignments := by simpa using hmem
    simp [Client.partially_validate_orphan_witness_in_epoch, hlayout, hs,
      hsigner, hassign, hm, hver]

/-- Witness for C4 at concrete inputs: in `testClient`, epoch 1 (whose
layout contains shard 0) validates the witness, while epoch 0 (whose
layout is empty) fails with the invalid-shard error. -/
theorem C4_partial_validation_check_order_witness :
    testClient.partially_validate_orphan_witness_in_epoch (testWitnessAt 103 7) 1 =
      .ok ()
    ∧ testClient.partially_validate_orphan_witness_in_epoch (testWitnessAt 103 7) 0 =
      .error (.InvalidChunkStateWitness
        ("Invalid shard_id in ChunkStateWitness: " ++ toString 0)) :=
  ⟨(C4_partial_validation_check_order testClient (testWitnessAt 103 7) 1 [0]
      rfl).2.2.2.2 5 [5] (by decide) rfl rfl (by decide) rfl,
   (C4_partial_validation_check_order testClient (testWitnessAt 103 7) 0 []
      rfl).1 (by decide)⟩

/-- Claim C3: for every witness within the allowed distance window whose
serialized byte size exceeds 40 MB (while fitting in a `u64`, as any Rust
`usize` does), `handle_orphan_state_witness` returns `Ok (TooBig size)`
carrying the computed size — not an error — with the client (hence the
pool) unchanged, for arbitrary epoch-manager behaviour: the size check
precedes epoch enumeration and validation. -/
theorem C3_too_big_witness_rejected
    (c : Client) (w : ChunkStateWitness) (tip : Tip) (bytes : List Nat)
    (hhead : c.chain.head = .ok tip)
    (hin : 2 ≤ w.inner.chunk_header.height_created - tip.height ∧
        w.inner.chunk_header.height_created - tip.height < 6)
    (hborsh : c.borsh_to_vec w = .ok bytes)
    (hbig : bytes.length > MAX_ORPHAN_WITNESS_SIZE)
    (hfit : bytes.length < 2 ^ 64) :
    c.handle_orphan_state_witness w = (.ok (.TooBig bytes.length), c) := by
  have hrc : rangeContains ALLOWED_ORPHAN_WITNESS_DISTANCE_FROM_HEAD
      (w.inner.chunk_header.height_created - tip.height) = true := by
    simp only [rangeContains, ALLOWED_ORPHAN_WITNESS_DISTANCE_FROM_HEAD,
      Bool.and_eq_true, decide_eq_true_eq]
    omega
  have hfit2 : bytes.length < 18446744073709551616 := by simpa using hfit
  simp only [Client.handle_orphan_state_witness, hhead, hrc, hborsh]
  simp [hfit2, hbig]

/-- Witness for C3 at concrete inputs: a serialization of 40000001 bytes
(one over the 40 MB limit) yields `TooBig 40000001` with the client
unchanged. -/
theorem C3_too_big_witness_rejected_witness :
    testClientBig.handle_orphan_state_witness (testWitnessAt 103 7) =
      (.ok (.TooBig 40000001), testClientBig) := by
  have hlen : bigBytes.length = 40000001 := by
    rw [bigBytes, List.length_replicate]
  have h := C3_too_big_witness_rejected testClientBig (testWitnessAt 103 7)
    ⟨100, 42⟩ bigBytes rfl (by decide) rfl
    (by rw [hlen]; norm_num [MAX_ORPHAN_WITNESS_SIZE])
    (by rw [hlen]; norm_num)
  rw [hlen] at h
  exact h

/-- Claim C7: if the epoch manager returns an empty list of candidate
epochs for the witness height (with the earlier distance and size checks
passing, so that the code reaches the epoch enumeration),
`handle_orphan_state_witness` returns an `Err` — an internal-consistency
`Error.Other` naming the witness height — never a benign outcome, and the
client (hence the pool) is unchanged. -/
theorem C7_empty_possible_epochs_is_error
    (c : Client) (w : ChunkStateWitness) (tip : Tip) (bytes : List Nat)
    (hhead : c.chain.head = .ok tip)
    (hin : 2 ≤ w.inner.chunk_header.height_created - tip.height ∧
        w.inner.chunk_header.height_created - tip.height < 6)
    (hborsh : c.borsh_to_vec w = .ok bytes)
    (hsize : bytes.length ≤ MAX_ORPHAN_WITNESS_SIZE)
    (hepochs : c.epoch_manager.possible_epochs_of_height_around_tip tip
        w.inner.chunk_header.height_created = .ok []) :
    c.handle_orphan_state_witness w =
      (.error (.Other
        ("Couldnt find any matching EpochId for orphan chunk state witness with height "
          ++ toString w.inner.chunk_header.height_created)), c) := by
  have hrc : rangeContains ALLOWED_ORPHAN_WITNESS_DISTANCE_FROM_HEAD
      (w.inner.chunk_header.height_created - tip.height) = true := by
    simp only [rangeContains, ALLOWED_ORPHAN_WITNESS_DISTANCE_FROM_HEAD,
      Bool.and_eq_true, decide_eq_true_eq]
    omega
  have hfit : bytes.length < 2 ^ 64 :=
    lt_of_le_of_lt hsize (by norm_num [MAX_ORPHAN_WITNESS_SIZE])
  have hnb : ¬ (bytes.length > MAX_ORPHAN_WITNESS_SIZE) := not_lt.mpr hsize
  have hfit2 : bytes.length < 18446744073709551616 := by simpa using hfit
  simp only [Client.handle_orphan_state_witness, hhead, hrc, hborsh, hepochs]
  simp [hfit2, hnb, Client.validate_in_possible_epochs]

/-- Witness for C7 at concrete inputs: a client whose epoch manager
returns no candidate epochs produces the internal-consistency error naming
height 103, with the client unchanged. -/
theorem C7_empty_possible_epochs_is_error_witness :
    testClientNoEpochs.handle_orphan_state_witness (testWitnessAt 103 7) =
      (.error (.Other
        ("Couldnt find any matching EpochId for orphan chunk state witness with height "
          ++ toString 103)), testClientNoEpochs) :=
  C7_empty_possible_epochs_is_error testClientNoEpochs (testWitnessAt 103 7)
    ⟨100, 42⟩ [1, 2, 3] rfl (by decide) rfl (by decide) rfl

/-- If some candidate epoch validates the witness, the epoch loop ends in
success. -/
theorem validate_in_possible_epochs_of_mem_ok
    (c : Client) (w : ChunkStateWitness) (es : List Nat) (e : Nat)
    (he : e ∈ es)
    (hok : c.partially_validate_orphan_witness_in_epoch w e = .ok ()) :
    c.validate_in_possible_epochs w es = some (.ok ()) := by
  induction es with
  | nil => cases he
  | cons a rest ih =>
    simp only [Client.validate_in_possible_epochs]
    cases hva : c.partially_validate_orphan_witness_in_epoch w a with
    | ok u => rfl
    | error err =>
      rcases List.mem_cons.mp he with rfl | hrest
      · rw [hva] at hok
        cases hok
      · rw [ih hrest]

/-- If every candidate epoch before the last fails and the last fails with
`err`, the epoch loop ends with `err` — the last failure, not the first. -/
theorem validate_in_possible_epochs_all_fail
    (c : Client) (w : ChunkStateWitness) (init : List Nat) (lastE : Nat)
    (err : Error)
    (hfail : ∀ e ∈ init, ∃ er,
      c.partially_validate_orphan_witness_in_epoch w e = .error er)
    (hlast : c.partially_validate_orphan_witness_in_epoch w lastE = .error err) :
    c.validate_in_possible_epochs w (init ++ [lastE]) = some (.error err) := by
  induction init with
  | nil =>
    simp [Client.validate_in_possible_epochs, hlast]
  | cons a rest ih =>
    obtain ⟨er, ha⟩ := hfail a (by simp)
    have ih2 := ih (fun e he => hfail e (by simp [he]))
    simp [Client.validate_in_possible_epochs, ha, ih2]

/-- Claim C2: for every witness that passes the distance and size filters,
the candidate epochs supplied by the epoch manager are tried in order:
if some candidate epoch validates the witness, it is admitted and
`Ok SavedToPool` is returned with the witness added to the pool; if
validation fails in every candidate epoch, `handle_orphan_state_witness`
returns the error produced by the last candidate tried, with the client
unchanged. -/
theorem C2_first_success_or_last_error
    (c : Client) (w : ChunkStateWitness) (tip : Tip) (bytes : List Nat)
    (es : List Nat)
    (hhead : c.chain.head = .ok tip)
    (hin : 2 ≤ w.inner.chunk_header.height_created - tip.height ∧
        w.inner.chunk_header.height_created - tip.height < 6)
    (hborsh : c.borsh_to_vec w = .ok bytes)
    (hsize : bytes.length ≤ MAX_ORPHAN_WITNESS_SIZE)
    (hepochs : c.epoch_manager.possible_epochs_of_height_around_tip tip
        w.inner.chunk_header.height_created = .ok es) :
    ((∃ e ∈ es, c.partially_validate_orphan_witness_in_epoch w e = .ok ()) →
      c.handle_orphan_state_witness w =
        (.ok .SavedToPool,
         { c with chunk_validator := { c.chunk_validator with
             orphan_witness_pool :=
               c.chunk_validator.orphan_witness_pool.add_orphan_state_witness
                 w bytes.length } }))
    ∧ (∀ init lastE err, es = init ++ [lastE] →
        (∀ e ∈ init, ∃ er,
          c.partially_validate_orphan_witness_in_epoch w e = .error er) →
        c.partially_validate_orphan_witness_in_epoch w lastE = .error err →
        c.handle_orphan_state_witness w = (.error err, c)) := by
  have hrc : rangeContains ALLOWED_ORPHAN_WITNESS_DISTANCE_FROM_HEAD
      (w.inner.chunk_header.height_created - tip.height) = true := by
    simp only [rangeContains, ALLOWED_ORPHAN_WITNESS_DISTANCE_FROM_HEAD,
      Bool.and_eq_true, decide_eq_true_eq]
    omega
  have hfit : bytes.length < 2 ^ 64 :=
    lt_of_le_of_lt hsize (by norm_num [MAX_ORPHAN_WITNESS_SIZE])
  have hfit2 : bytes.length < 18446744073709551616 := by simpa using hfit
  have hnb : ¬ (bytes.length > MAX_ORPHAN_WITNESS_SIZE) := not_lt.mpr hsize
  constructor
  · rintro ⟨e, he, hok⟩
    have hloop := validate_in_possible_epochs_of_mem_ok c w es e he hok
    simp only [Client.handle_orphan_state_witness, hhead, hrc, hborsh, hepochs,
      hloop]
    simp [hfit2, hnb]
  · intro init lastE err hsplit hfail hlast
    subst hsplit
    have hloop := validate_in_possible_epochs_all_fail c w init lastE err
      hfail hlast
    simp only [Client.handle_orphan_state_witness, hhead, hrc, hborsh, hepochs,
      hloop]
    simp [hfit2, hnb]

/-- Witness for C2 at concrete inputs: in `testClient` the witness fails in
epoch 0 but validates in epoch 1, so it is admitted with `SavedToPool`; in
`testClientAllFail` both epochs fail with the invalid-shard error, and that
(last) error is returned with the client unchanged. -/
theorem C2_first_success_or_last_error_witness :
    testClient.handle_orphan_state_witness (testWitnessAt 103 7) =
      (.ok .SavedToPool,
       { testClient with chunk_validator := { testClient.chunk_validator with
           orphan_witness_pool :=
             testClient.chunk_validator.orphan_witness_pool.add_orphan_state_witness
               (testWitnessAt 103 7) 3 } })
    ∧ testClientAllFail.handle_orphan_state_witness (testWitnessAt 103 7) =
      (.error (.InvalidChunkStateWitness
        ("Invalid shard_id in ChunkStateWitness: " ++ toString 0)),
       testClientAllFail) :=
  ⟨(C2_first_success_or_last_error testClient (testWitnessAt 103 7)
      ⟨100, 42⟩ [1, 2, 3] [0, 1] rfl (by decide) rfl (by decide) rfl).1
      ⟨1, by decide, rfl⟩,
   (C2_first_success_or_last_error testClientAllFail (testWitnessAt 103 7)
      ⟨100, 42⟩ [1, 2, 3] [0, 1] rfl (by decide) rfl (by decide) rfl).2
      [0] 1 (.InvalidChunkStateWitness
        ("Invalid shard_id in ChunkStateWitness: " ++ toString 0))
      rfl (by
        intro e he
        simp only [List.mem_singleton] at he
        subst he
        exact ⟨_, rfl⟩) rfl⟩

/-- Claim C9: when a witness is admitted (`SavedToPool`), the pool entry
carries exactly the byte size computed from the single serialization done
during the size check of the same call, and the entry is keyed by the
witness's previous-block hash. -/
theorem C9_saved_entry_size_and_key
    (c : Client) (w : ChunkStateWitness) (tip : Tip) (bytes : List Nat)
    (es : List Nat)
    (hhead : c.chain.head = .ok tip)
    (hin : 2 ≤ w.inner.chunk_header.height_created - tip.height ∧
        w.inner.chunk_header.height_created - tip.height < 6)
    (hborsh : c.borsh_to_vec w = .ok bytes)
    (hsize : bytes.length ≤ MAX_ORPHAN_WITNESS_SIZE)
    (hepochs : c.epoch_manager.possible_epochs_of_height_around_tip tip
        w.inner.chunk_header.height_created = .ok es)
    (hvalid : ∃ e ∈ es,
      c.partially_validate_orphan_witness_in_epoch w e = .ok ()) :
    (c.handle_orphan_state_witness w).1 =
      Except.ok HandleOrphanWitnessOutcome.SavedToPool
    ∧ ((c.handle_orphan_state_witness w).2).chunk_validator.orphan_witness_pool.entries =
      c.chunk_validator.orphan_witness_pool.entries ++
        [⟨w.inner.chunk_header.prev_block_hash, w, bytes.length⟩] := by
  have hrc : rangeContains ALLOWED_ORPHAN_WITNESS_DISTANCE_FROM_HEAD
      (w.inner.chunk_header.height_created - tip.height) = true := by
    simp only [rangeContains, ALLOWED_ORPHAN_WITNESS_DISTANCE_FROM_HEAD,
      Bool.and_eq_true, decide_eq_true_eq]
    omega
  have hfit : bytes.length < 2 ^ 64 :=
    lt_of_le_of_lt hsize (by norm_num [MAX_ORPHAN_WITNESS_SIZE])
  have hfit2 : bytes.length < 18446744073709551616 := by simpa using hfit
  have hnb : ¬ (bytes.length > MAX_ORPHAN_WITNESS_SIZE) := not_lt.mpr hsize
  obtain ⟨e, he, hok⟩ := hvalid
  have hloop := validate_in_possible_epochs_of_mem_ok c w es e he hok
  simp only [Client.handle_orphan_state_witness, hhead, hrc, hborsh, hepochs,
    hloop]
  simp [hfit2, hnb, OrphanStateWitnessPool.add_orphan_state_witness]

/-- Witness for C9 at concrete inputs: the admitted witness is stored under
key 55 (its previous-block hash) with size 3 (the length of its serialized
form). -/
theorem C9_saved_entry_size_and_key_witness :
    (testClient.handle_orphan_state_witness (testWitnessAt 103 7)).1 =
      Except.ok HandleOrphanWitnessOutcome.SavedToPool
    ∧ ((testClient.handle_orphan_state_witness
        (testWitnessAt 103 7)).2).chunk_validator.orphan_witness_pool.entries =
      [⟨55, testWitnessAt 103 7, 3⟩] :=
  C9_saved_entry_size_and_key testClient (testWitnessAt 103 7)
    ⟨100, 42⟩ [1, 2, 3] [0, 1] rfl (by decide) rfl (by decide) rfl
    ⟨1, by decide, rfl⟩

/-- The dispatch loop hands every ready witness to the pipeline, whatever
the per-witness results are: the trace lists exactly the ready witnesses,
in order. -/
theorem dispatch_ready_witnesses_map_fst
    (c : Client) (b : Block) (ws : List ChunkStateWitness) :
    (c.dispatch_ready_witnesses b ws).map Prod.fst = ws := by
  induction ws with
  | nil => rfl
  | cons w rest ih =>
    simp [Client.dispatch_ready_witnesses, ih]

/-- The dispatch trace of `process_ready_orphan_witnesses_and_clean_old`
lists exactly the witnesses taken from the pool for the new block,
whatever the pipeline and header-lookup oracles do. -/
theorem process_ready_trace_map_fst
    (c : Client) (b : Block) :
    ((c.process_ready_orphan_witnesses_and_clean_old b).2).map Prod.fst =
      (c.chunk_validator.orphan_witness_pool.take_state_witnesses_waiting_for_block
        b.hash).1 := by
  simp only [Client.process_ready_orphan_witnesses_and_clean_old]
  split
  · exact dispatch_ready_witnesses_map_fst c b _
  · exact dispatch_ready_witnesses_map_fst c b _

/-- Claim C5: in `process_ready_orphan_witnesses_and_clean_old`, pipeline
failures on dispatched witnesses are swallowed — for every client (hence
every pattern of per-witness pipeline failures) every witness taken for the
new block is handed to the pipeline (the dispatch trace lists exactly the
taken witnesses) — and when the last-final-block lookup succeeds the final
prune step still runs on the pool. -/
theorem C5_failures_swallowed_all_dispatched
    (c : Client) (b : Block) :
    ((c.process_ready_orphan_witnesses_and_clean_old b).2).map Prod.fst =
      (c.chunk_validator.orphan_witness_pool.take_state_witnesses_waiting_for_block
        b.hash).1
    ∧ (∀ hdr, c.chain.get_block_header b.header.last_final_block = .ok hdr →
        ((c.process_ready_orphan_witnesses_and_clean_old
            b).1).chunk_validator.orphan_witness_pool =
          ((c.chunk_validator.orphan_witness_pool.take_state_witnesses_waiting_for_block
              b.hash).2).remove_witnesses_below_final_height hdr.height) := by
  constructor
  · exact process_ready_trace_map_fst c b
  · intro hdr hhdr
    simp only [Client.process_ready_orphan_witnesses_and_clean_old, hhdr]

/-- Claim C6: if resolving the new block's last-final-block identifier to a
header fails, `process_ready_orphan_witnesses_and_clean_old` returns
without pruning — the pool is exactly the post-take pool — and the dispatch
already performed is not rolled back (the trace still lists every taken
witness). -/
theorem C6_prune_aborted_on_header_error
    (c : Client) (b : Block) (e : Error)
    (herr : c.chain.get_block_header b.header.last_final_block = .error e) :
    ((c.process_ready_orphan_witnesses_and_clean_old
        b).1).chunk_validator.orphan_witness_pool =
      (c.chunk_validator.orphan_witness_pool.take_state_witnesses_waiting_for_block
        b.hash).2
    ∧ ((c.process_ready_orphan_witnesses_and_clean_old b).2).map Prod.fst =
      (c.chunk_validator.orphan_witness_pool.take_state_witnesses_waiting_for_block
        b.hash).1 := by
  refine ⟨?_, process_ready_trace_map_fst c b⟩
  simp only [Client.process_ready_orphan_witnesses_and_clean_old, herr]

/-- Witness for C5 at concrete inputs: with block 55 arriving, both waiting
witnesses `wA` and `wB` are dispatched even though the pipeline fails on
`wA`, and the pool is pruned below final height 101 (dropping `wC`), so
only `wD` remains. -/
theorem C5_failures_swallowed_all_dispatched_witness :
    ((testClientDispatch.process_ready_orphan_witnesses_and_clean_old
        testBlock).2).map Prod.fst = [wA, wB]
    ∧ ((testClientDispatch.process_ready_orphan_witnesses_and_clean_old
        testBlock).1).chunk_validator.orphan_witness_pool = ⟨[⟨66, wD, 6⟩]⟩ := by
  have h := C5_failures_swallowed_all_dispatched testClientDispatch testBlock
  constructor
  · rw [h.1]
    rfl
  · rw [h.2 ⟨101, 70⟩ rfl]
    rfl

/-- Witness for C6 at concrete inputs: when every block-header lookup
fails, the pool after the call is exactly the post-take pool (`wC` and
`wD`, unpruned), while both taken witnesses were still dispatched. -/
theorem C6_prune_aborted_on_header_error_witness :
    ((testClientNoHeader.process_ready_orphan_witnesses_and_clean_old
        testBlock).1).chunk_validator.orphan_witness_pool =
      ⟨[⟨66, wC, 5⟩, ⟨66, wD, 6⟩]⟩
    ∧ ((testClientNoHeader.process_ready_orphan_witnesses_and_clean_old
        testBlock).2).map Prod.fst = [wA, wB] := by
  have h := C6_prune_aborted_on_header_error testClientNoHeader testBlock
    (.DBNotFoundErr "header") rfl
  constructor
  · rw [h.1]
    rfl
  · rw [h.2]
    rfl

/-- After `process_ready_orphan_witnesses_and_clean_old` for block `b`, no
entry of the resulting pool is keyed by `b`'s hash: the take removed them
all, and the prune only removes further entries. -/
theorem process_ready_pool_no_key
    (c : Client) (b : Block) :
    ∀ e ∈ ((c.process_ready_orphan_witnesses_and_clean_old
        b).1).chunk_validator.orphan_witness_pool.entries,
      (e.key == b.hash) = false := by
  intro e he
  simp only [Client.process_ready_orphan_witnesses_and_clean_old] at he
  revert he
  split
  · intro he
    simp only [OrphanStateWitnessPool.take_state_witnesses_waiting_for_block] at he
    have := List.of_mem_filter he
    simpa using this
  · intro he
    simp only [OrphanStateWitnessPool.remove_witnesses_below_final_height,
      OrphanStateWitnessPool.take_state_witnesses_waiting_for_block] at he
    have h2 := List.mem_of_mem_filter he
    have := List.of_mem_filter h2
    simpa using this

/-- Taking from a pool that holds no entry under the given key returns no
witnesses. -/
theorem take_eq_nil_of_no_key
    (p : OrphanStateWitnessPool) (h : Nat)
    (hp : ∀ e ∈ p.entries, (e.key == h) = false) :
    (p.take_state_witnesses_waiting_for_block h).1 = [] := by
  simp only [OrphanStateWitnessPool.take_state_witnesses_waiting_for_block]
  have hnil : p.entries.filter (fun e => e.key == h) = [] := by
    rw [List.filter_eq_nil_iff]
    intro a ha
    simp [hp a ha]
  simp [hnil]

/-- Claim C8: dispatch is idempotent per block — after
`process_ready_orphan_witnesses_and_clean_old` for block `b`, a second call
for the same block dispatches nothing (its dispatch trace is empty),
because the first call's take removed every entry keyed by `b`. -/
theorem C8_dispatch_idempotent_per_block
    (c : Client) (b : Block) :
    (((c.process_ready_orphan_witnesses_and_clean_old
        b).1).process_ready_orphan_witnesses_and_clean_old b).2 = [] := by
  have hno := process_ready_pool_no_key c b
  have htake := take_eq_nil_of_no_key
    ((c.process_ready_orphan_witnesses_and_clean_old
      b).1).chunk_validator.orphan_witness_pool b.hash hno
  have htr := process_ready_trace_map_fst
    ((c.process_ready_orphan_witnesses_and_clean_old b).1) b
  rw [htake] at htr
  exact List.map_eq_nil_iff.mp htr

end OrphanWitness
